import Mathlib

/-!
Shallow embedding of the retrieval-augmented answer pipeline in
`src/supabase/functions/prompt/index.ts` and the SQL `match_documents`
function quoted in the repository notes, together with theorems checking
the specification's claims against it.

External collaborators (OpenAI embeddings/completions, the Supabase RPC
transport, HTTP fetch, the `front-matter` parser) are modelled as oracles:
each request carries a fixed outcome for every outbound call, and the
embedded functions are the source's control flow over those outcomes.
-/

/-- `"text-embedding-3-small"` vectors are floats; modelled as rationals. -/
abbrev Vec := List ℚ

/-- One row of the matcher response as the handler consumes it
(`{ id, title, url, similarity }`, observed output shape). -/
structure DocumentMatch where
  id : String
  title : String
  url : String
  similarity : ℚ
deriving DecidableEq

/-- Result of `fm(content)`: front-matter attributes plus body
(`index.ts` reads only `.body`; an absent field is modelled as empty). -/
structure ParsedDocument where
  attributes : List (String × String)
  body : String
deriving DecidableEq

/-- Outcome of the HTTP GET plus `fm` parse inside `parseExpoDocs`:
`notOk` is a non-2xx response, `raised` is a network or parse exception,
`ok` carries the successfully parsed document. -/
inductive FetchOutcome where
  | notOk (statusText : String)
  | raised
  | ok (doc : ParsedDocument)
deriving DecidableEq

/-- `true` exactly on the two failure outcomes of a fetch. -/
def fetchFailed : FetchOutcome → Bool
  | FetchOutcome.notOk _ => true
  | FetchOutcome.raised => true
  | FetchOutcome.ok _ => false

/-- URL constructed by `parseExpoDocs` (`index.ts` line 18). -/
def expoDocsUrl (slug : String) : String :=
  "https://raw.githubusercontent.com/expo/expo/main/docs/pages/" ++ slug ++ ".mdx"

/-- `parseExpoDocs` (`index.ts` lines 16-33): on a non-2xx response or any
thrown error it returns `{ body: "" }` (no attributes), otherwise the parsed
front-matter data. Total by construction: no outcome escapes the catch. -/
def parseExpoDocs (_slug : String) (o : FetchOutcome) : ParsedDocument :=
  match o with
  | FetchOutcome.notOk _ => ⟨[], ""⟩
  | FetchOutcome.raised => ⟨[], ""⟩
  | FetchOutcome.ok d => d

/-- Outcome of `openai.embeddings.create`: `ok` carries
`embedding.data[0].embedding`, `raised` is any thrown provider error. -/
inductive EmbedOutcome where
  | ok (vector : Vec)
  | raised
deriving DecidableEq

/-- `generateEmbeddings` (`index.ts` lines 35-50): the provider vector on
success, `[]` on any caught provider error. -/
def generateEmbeddings (o : EmbedOutcome) : Vec :=
  match o with
  | EmbedOutcome.ok v => v
  | EmbedOutcome.raised => []

/-- `response.choices[0].message` shape. -/
structure ChatMessage where
  content : String
deriving DecidableEq

/-- `response.choices[0]` shape. -/
structure Choice where
  message : ChatMessage
deriving DecidableEq

/-- Outcome of `openai.chat.completions.create`: `ok` carries
`response.choices[0]`, `raised` is any thrown provider error. -/
inductive CompletionOutcome where
  | ok (choice : Choice)
  | raised
deriving DecidableEq

/-- Fallback content returned by `getCompletion` on a caught provider error
(`index.ts` line 72). -/
def completionFallbackMessage : String :=
  "I’m sorry, but I had trouble generating an answer. Please try again."

/-- `getCompletion` (`index.ts` lines 52-76): the first choice on success,
the fixed apologetic fallback on any caught provider error. -/
def getCompletion (_prompt : String) (o : CompletionOutcome) : Choice :=
  match o with
  | CompletionOutcome.ok c => c
  | CompletionOutcome.raised => ⟨⟨completionFallbackMessage⟩⟩

/-- The refusal phrase quoted twice inside the prompt template
(`index.ts` lines 90 and 101). -/
def refusalPhrase : String :=
  "I’m sorry, but my knowledge is limited to Expo. Could you clarify what you\x27re looking for regarding Expo projects?"

/-- The clarification message of the empty-match response
(`index.ts` line 144). -/
def clarificationMessage : String :=
  "I’m sorry, but my knowledge is limited to Expo. Could you clarify what you\x27re looking for regarding Expo projects?"

/-- Body message of the matcher-error response (`index.ts` line 130). -/
def errorMatchingMessage : String :=
  "Error matching documents."

/-- Template text before the first quoted refusal phrase, from the
template's first non-whitespace character (`.trim()` strips the leading
newline). -/
def promptInstrA : String :=
  "You are an AI specialized in answering questions about Expo projects. \nYou have the following CONTEXT as your entire knowledge base. \nIf the user asks for anything outside the CONTEXT or the question cannot be answered with the CONTEXT, \nrespond with a short clarifying question such as: \n\""

/-- Template text between the first quoted refusal phrase and the
interpolated `docsContext`. -/
def promptInstrB : String :=
  "\"\nEncourage the user to clarify or rephrase if necessary.\n\nCONTEXT:\n"

/-- Instruction section of the prompt template: everything before the
interpolated `docsContext`. -/
def promptInstr : String :=
  promptInstrA ++ refusalPhrase ++ promptInstrB

/-- Template text between the interpolated `docsContext` and `query`. -/
def promptMid : String :=
  "\n\nUSER QUERY: "

/-- Template text between the interpolated `query` and the second quoted
refusal phrase. -/
def promptCloseA : String :=
  "\n\nAnswer ONLY with information found in CONTEXT. If the information is not found, respond with:\n\""

/-- Template text after the second quoted refusal phrase, up to the
template's last non-whitespace character (`.trim()` strips the trailing
`"\n  "`). -/
def promptCloseB : String :=
  "\"\n\nFinal Answer:"

/-- Closing section of the prompt template: everything after the
interpolated `query`. -/
def promptClose : String :=
  promptCloseA ++ refusalPhrase ++ promptCloseB

/-- `buildFullPrompt` (`index.ts` lines 85-104): the backtick template with
`.trim()` applied. The trim only removes the template's own leading `"\n"`
and trailing `"\n  "`: both ends of the literal template are non-whitespace
past those, so the interpolated `docsContext` and `query` are untouched. -/
def buildFullPrompt (query : String) (docsContext : String) : String :=
  promptInstr ++ docsContext ++ promptMid ++ query ++ promptClose

/-- Outcome of `supabase.rpc("match_documents", ...)`: the destructured
`{ data, error }` with `error` truthy, or `data` (possibly `null`). -/
inductive RpcOutcome where
  | rpcError (e : String)
  | okData (data : Option (List DocumentMatch))

/-- The outcomes of every outbound call one request can make. -/
structure Env where
  embedding : EmbedOutcome
  rpc : RpcOutcome
  fetch : String → FetchOutcome
  completion : CompletionOutcome

/-- `AnswerResult`: the JSON body the handler serialises. -/
structure AnswerResult where
  message : String
  docs : List DocumentMatch
deriving DecidableEq

/-- A `Response`: body plus HTTP status (200 when the source passes no
explicit status). -/
structure HttpResponse where
  body : AnswerResult
  status : Nat
deriving DecidableEq

/-- Trace of outbound collaborator calls the handler makes, in order:
embeddings request, matcher RPC (with its arguments), one fetch per
matched document, prompt assembly, completion request. -/
inductive Call where
  | embedReq (input : String)
  | matchDocs (query_embedding : Vec) (match_threshold : ℚ) (match_count : Nat)
  | fetchDoc (slug : String)
  | buildPrompt (query : String) (docsContext : String)
  | completionReq (prompt : String)
deriving DecidableEq

/-- Bodies fetched for a match list, in match order: `parseExpoDocs(doc.id)`
per row; `doc.body || ""` is the body itself, since a `ParsedDocument` body
is always a string and `"" || ""` is `""`. -/
def contextsOf (env : Env) (similarDocs : List DocumentMatch) : List String :=
  similarDocs.map fun d => (parseExpoDocs d.id (env.fetch d.id)).body

/-- The `Deno.serve` handler (`index.ts` lines 106-183) on its modelled
branches, returning the response and the trace of collaborator calls.
Mirrors the source order: embed the query; call the RPC with threshold
`0.3` and count `3`; on `error` answer 500 with the fixed matcher-error
body; on `null` or empty `data` answer 200 with the fixed clarification
body; otherwise fetch every match (`Promise.all` keeps index order), join
the bodies with `"\n"`, build the prompt, get the completion, and answer
200 with the completion content and the original match list. -/
def answer (env : Env) (query : String) : HttpResponse × List Call :=
  let vector := generateEmbeddings env.embedding
  let preCalls := [Call.embedReq query, Call.matchDocs vector (3/10) 3]
  match env.rpc with
  | RpcOutcome.rpcError _ =>
      (⟨⟨errorMatchingMessage, []⟩, 500⟩, preCalls)
  | RpcOutcome.okData none =>
      (⟨⟨clarificationMessage, []⟩, 200⟩, preCalls)
  | RpcOutcome.okData (some similarDocs) =>
      if similarDocs.length = 0 then
        (⟨⟨clarificationMessage, []⟩, 200⟩, preCalls)
      else
        let docsBodies := String.intercalate "\n" (contextsOf env similarDocs)
        let filledPrompt := buildFullPrompt query docsBodies
        let answerChoice := getCompletion filledPrompt env.completion
        (⟨⟨answerChoice.message.content, similarDocs⟩, 200⟩,
          preCalls ++ similarDocs.map (fun d => Call.fetchDoc d.id)
            ++ [Call.buildPrompt query docsBodies, Call.completionReq filledPrompt])

/-- One row of the `documents` table as `match_documents` reads it: the
selected columns plus the `vector` column compared by the `<=>` operator.
The deployed table keys documents by slug, so `id` is a string here. -/
structure DocumentsRow where
  id : String
  title : String
  body : String
  embedding : Vec
deriving DecidableEq

/-- One row of the `match_documents` result table
(`returns table (id, title, body, similarity)`). -/
structure MatchDocumentsRow where
  id : String
  title : String
  body : String
  similarity : ℚ
deriving DecidableEq

/-- The `order by (documents.embedding <=> query_embedding) asc` comparison,
for an abstract distance operator `dist` standing for pgvector's `<=>`. -/
def distLe (dist : Vec → Vec → ℚ) (query_embedding : Vec)
    (a b : DocumentsRow) : Prop :=
  dist a.embedding query_embedding ≤ dist b.embedding query_embedding

instance (dist : Vec → Vec → ℚ) (q : Vec) : DecidableRel (distLe dist q) :=
  fun a b => inferInstanceAs (Decidable (_ ≤ _))

/-- The SQL function `match_documents` quoted in the repository notes:
select `1 - (embedding <=> query_embedding)` as similarity, keep rows
`where` that similarity exceeds `match_threshold`, `order by` the distance
ascending, `limit match_count`. The cosine-distance operator `<=>` is
external to the repository, so it is a parameter `dist`. -/
def match_documents (dist : Vec → Vec → ℚ) (documents : List DocumentsRow)
    (query_embedding : Vec) (match_threshold : ℚ) (match_count : Nat) :
    List MatchDocumentsRow :=
  ((List.insertionSort (distLe dist query_embedding)
      (documents.filter fun r =>
        decide (1 - dist r.embedding query_embedding > match_threshold))
    ).take match_count
  ).map fun r => ⟨r.id, r.title, r.body, 1 - dist r.embedding query_embedding⟩

/-- Concrete match row used by witnesses (Scenario A of the spec). -/
def sampleMatchA : DocumentMatch :=
  ⟨"submit/overview", "Submit", "https://x/submit", 81/100⟩

/-- Second concrete match row used by witnesses. -/
def sampleMatchB : DocumentMatch :=
  ⟨"get-started/introduction", "Introduction",
    "https://docs.expo.dev/get-started/introduction", 57/100⟩

/-- Concrete fetch oracle: one slug parses, every other fetch raises. -/
def sampleFetch : String → FetchOutcome := fun s =>
  if s = "submit/overview" then
    FetchOutcome.ok ⟨[("title", "Submit")], "How to submit."⟩
  else FetchOutcome.raised

/-- Concrete environment with two matches, one failing fetch, and a failing
completion provider. -/
def sampleEnv : Env :=
  ⟨EmbedOutcome.ok [1, 0], RpcOutcome.okData (some [sampleMatchA, sampleMatchB]),
    sampleFetch, CompletionOutcome.raised⟩

/-- Concrete environment whose embeddings provider raises. -/
def embedFailEnv : Env :=
  ⟨EmbedOutcome.raised, RpcOutcome.okData (some []),
    fun _ => FetchOutcome.raised, CompletionOutcome.raised⟩

/-- Concrete environment with one match and a failing completion provider. -/
def completionFailEnv : Env :=
  ⟨EmbedOutcome.ok [1, 0], RpcOutcome.okData (some [sampleMatchA]),
    sampleFetch, CompletionOutcome.raised⟩

/-- Concrete environment whose matcher RPC reports a transport error. -/
def storeFailEnv : Env :=
  ⟨EmbedOutcome.ok [1, 0], RpcOutcome.rpcError "FetchError: network timeout",
    fun _ => FetchOutcome.raised, CompletionOutcome.raised⟩

/-- A distance operator under which two distinct rows are equidistant from
the query: zero on equal vectors, `1/2` otherwise. -/
def cexDist : Vec → Vec → ℚ := fun a b => if a = b then 0 else 1/2

/-- Two distinct documents carrying the same embedding, hence at the same
distance from any query under any distance operator. -/
def cexDocs : List DocumentsRow :=
  [⟨"a", "A", "Alpha body", [1, 0]⟩, ⟨"b", "B", "Beta body", [1, 0]⟩]

/-- Claim C1: when the matcher RPC succeeds with an empty match sequence, the
handler answers HTTP 200 with the fixed clarification message and
`docs == []`, and makes no fetch, prompt-assembly, or completion call. -/
theorem answer_empty_matches_short_circuit (env : Env) (query : String)
    (h : env.rpc = RpcOutcome.okData (some [])) :
    (answer env query).1 = ⟨⟨clarificationMessage, []⟩, 200⟩ ∧
    (∀ s, Call.fetchDoc s ∉ (answer env query).2) ∧
    (∀ q c, Call.buildPrompt q c ∉ (answer env query).2) ∧
    (∀ p, Call.completionReq p ∉ (answer env query).2) := by
  simp [answer, h]

/-- Witness for C1 at a concrete environment and query. -/
theorem answer_empty_matches_short_circuit_witness :
    (answer ⟨EmbedOutcome.ok [], RpcOutcome.okData (some []),
        fun _ => FetchOutcome.raised, CompletionOutcome.raised⟩
      "asdfqwerty nonsense").1 = ⟨⟨clarificationMessage, []⟩, 200⟩ ∧
    (∀ s, Call.fetchDoc s ∉
      (answer ⟨EmbedOutcome.ok [], RpcOutcome.okData (some []),
          fun _ => FetchOutcome.raised, CompletionOutcome.raised⟩
        "asdfqwerty nonsense").2) ∧
    (∀ q c, Call.buildPrompt q c ∉
      (answer ⟨EmbedOutcome.ok [], RpcOutcome.okData (some []),
          fun _ => FetchOutcome.raised, CompletionOutcome.raised⟩
        "asdfqwerty nonsense").2) ∧
    (∀ p, Call.completionReq p ∉
      (answer ⟨EmbedOutcome.ok [], RpcOutcome.okData (some []),
          fun _ => FetchOutcome.raised, CompletionOutcome.raised⟩
        "asdfqwerty nonsense").2) :=
  answer_empty_matches_short_circuit _ "asdfqwerty nonsense" rfl

/-- Claim C2: when the matcher RPC reports an error, the handler answers HTTP 500
with body `{ message: "Error matching documents.", docs: [] }`, and makes no
fetch, prompt-assembly, or completion call. -/
theorem answer_rpc_error_500 (env : Env) (query e : String)
    (h : env.rpc = RpcOutcome.rpcError e) :
    (answer env query).1 = ⟨⟨errorMatchingMessage, []⟩, 500⟩ ∧
    (∀ s, Call.fetchDoc s ∉ (answer env query).2) ∧
    (∀ q c, Call.buildPrompt q c ∉ (answer env query).2) ∧
    (∀ p, Call.completionReq p ∉ (answer env query).2) := by
  simp [answer, h]

/-- Witness for C2 at a concrete environment and query. -/
theorem answer_rpc_error_500_witness :
    (answer ⟨EmbedOutcome.ok [], RpcOutcome.rpcError "transport down",
        fun _ => FetchOutcome.raised, CompletionOutcome.raised⟩
      "How do I submit a project?").1 = ⟨⟨errorMatchingMessage, []⟩, 500⟩ ∧
    (∀ s, Call.fetchDoc s ∉
      (answer ⟨EmbedOutcome.ok [], RpcOutcome.rpcError "transport down",
          fun _ => FetchOutcome.raised, CompletionOutcome.raised⟩
        "How do I submit a project?").2) ∧
    (∀ q c, Call.buildPrompt q c ∉
      (answer ⟨EmbedOutcome.ok [], RpcOutcome.rpcError "transport down",
          fun _ => FetchOutcome.raised, CompletionOutcome.raised⟩
        "How do I submit a project?").2) ∧
    (∀ p, Call.completionReq p ∉
      (answer ⟨EmbedOutcome.ok [], RpcOutcome.rpcError "transport down",
          fun _ => FetchOutcome.raised, CompletionOutcome.raised⟩
        "How do I submit a project?").2) :=
  answer_rpc_error_500 _ "How do I submit a project?" "transport down" rfl

/-- Claim C3: for a non-empty match list, the response keeps the original
match list exactly (same length, members, and order), the fetched bodies
are recombined in match order into the prompt, and a failed fetch
contributes an empty context line instead of being dropped. -/
theorem answer_docs_passthrough (env : Env) (query : String) (l : List DocumentMatch)
    (hl : env.rpc = RpcOutcome.okData (some l)) (hne : l ≠ []) :
    (answer env query).1.body.docs = l ∧
    (answer env query).1.status = 200 ∧
    (answer env query).1.body.message =
      (getCompletion (buildFullPrompt query (String.intercalate "\n" (contextsOf env l)))
        env.completion).message.content ∧
    (contextsOf env l).length = l.length ∧
    (∀ (i : Nat) (d : DocumentMatch), l[i]? = some d →
      fetchFailed (env.fetch d.id) = true → (contextsOf env l)[i]? = some "") := by
  have hlen : ¬ l.length = 0 := by simpa [List.length_eq_zero] using hne
  refine ⟨?_, ?_, ?_, ?_, ?_⟩
  · simp [answer, hl, hlen]
  · simp [answer, hl, hlen]
  · simp [answer, hl, hlen]
  · simp [contextsOf]
  · intro i d hid hfail
    have hmap : (contextsOf env l)[i]? =
        some ((parseExpoDocs d.id (env.fetch d.id)).body) := by
      simp [contextsOf, List.getElem?_map, hid]
    rw [hmap]
    cases ho : env.fetch d.id with
    | notOk s => simp [parseExpoDocs, ho]
    | raised => simp [parseExpoDocs, ho]
    | ok doc => rw [ho] at hfail; simp [fetchFailed] at hfail

/-- Witness for claim C3: two matches, the second one's fetch raises. -/
theorem answer_docs_passthrough_witness :
    (answer sampleEnv "How do I submit a project?").1.body.docs
      = [sampleMatchA, sampleMatchB] ∧
    (answer sampleEnv "How do I submit a project?").1.status = 200 ∧
    (answer sampleEnv "How do I submit a project?").1.body.message =
      (getCompletion (buildFullPrompt "How do I submit a project?"
        (String.intercalate "\n" (contextsOf sampleEnv [sampleMatchA, sampleMatchB])))
        sampleEnv.completion).message.content ∧
    (contextsOf sampleEnv [sampleMatchA, sampleMatchB]).length
      = [sampleMatchA, sampleMatchB].length ∧
    (∀ (i : Nat) (d : DocumentMatch), [sampleMatchA, sampleMatchB][i]? = some d →
      fetchFailed (sampleEnv.fetch d.id) = true →
      (contextsOf sampleEnv [sampleMatchA, sampleMatchB])[i]? = some "") :=
  answer_docs_passthrough sampleEnv "How do I submit a project?"
    [sampleMatchA, sampleMatchB] rfl (by simp)

/-- Claim C4: `parseExpoDocs` never lets a fetch or parse failure escape:
on a non-2xx response, a network failure, or a parse failure it returns the
`ParsedDocument` with empty body and empty metadata, for every slug. -/
theorem parseExpoDocs_failure_empty (slug : String) (o : FetchOutcome)
    (h : fetchFailed o = true) :
    parseExpoDocs slug o = ⟨[], ""⟩ := by
  cases o with
  | notOk s => rfl
  | raised => rfl
  | ok d => simp [fetchFailed] at h

/-- Witness for claim C4 at a concrete slug and a raised fetch. -/
theorem parseExpoDocs_failure_empty_witness :
    parseExpoDocs "get-started/introduction" FetchOutcome.raised = ⟨[], ""⟩ :=
  parseExpoDocs_failure_empty "get-started/introduction" FetchOutcome.raised rfl

/-- Claim C5 (amended): for every distance operator, table, query vector,
threshold and positive limit, `match_documents` returns only rows with
similarity strictly above the threshold, at most `match_count` rows, and
rows sorted descending by similarity — non-strictly, since rows at equal
distance yield equal similarities. -/
theorem match_documents_spec (dist : Vec → Vec → ℚ) (documents : List DocumentsRow)
    (query_embedding : Vec) (match_threshold : ℚ) (match_count : Nat)
    (hk : 0 < match_count) :
    (∀ m ∈ match_documents dist documents query_embedding match_threshold match_count,
      match_threshold < m.similarity) ∧
    (match_documents dist documents query_embedding match_threshold match_count).length
      ≤ match_count ∧
    List.Sorted (fun a b : MatchDocumentsRow => b.similarity ≤ a.similarity)
      (match_documents dist documents query_embedding match_threshold match_count) := by
  unfold match_documents
  haveI : IsTotal DocumentsRow (distLe dist query_embedding) :=
    ⟨fun a b => le_total _ _⟩
  haveI : IsTrans DocumentsRow (distLe dist query_embedding) :=
    ⟨fun a b c hab hbc => le_trans hab hbc⟩
  refine ⟨?_, ?_, ?_⟩
  · intro m hm
    simp only [List.mem_map] at hm
    obtain ⟨r, hr, rfl⟩ := hm
    have hr2 := List.take_subset _ _ hr
    rw [List.mem_insertionSort, List.mem_filter] at hr2
    simpa using of_decide_eq_true hr2.2
  · simp only [List.length_map, List.length_take]
    exact min_le_left _ _
  · have hs := List.sorted_insertionSort (distLe dist query_embedding)
      (documents.filter fun r =>
        decide (1 - dist r.embedding query_embedding > match_threshold))
    have hst : List.Sorted (distLe dist query_embedding)
        ((List.insertionSort (distLe dist query_embedding)
          (documents.filter fun r =>
            decide (1 - dist r.embedding query_embedding > match_threshold))).take
          match_count) :=
      List.Pairwise.sublist (List.take_sublist _ _) hs
    exact hst.map _ (fun a b hab => sub_le_sub_left hab 1)

/-- Counterexample to claim C5 as stated: two distinct documents with the
same embedding clear the `0.3` threshold with equal similarity, so the
output is not sorted strictly descending. -/
theorem match_documents_not_strictly_sorted :
    ¬ List.Sorted (fun a b : MatchDocumentsRow => b.similarity < a.similarity)
      (match_documents cexDist cexDocs [1, 0] (3/10) 3) := by
  have h : match_documents cexDist cexDocs [1, 0] (3/10) 3 =
      [⟨"a", "A", "Alpha body", 1⟩, ⟨"b", "B", "Beta body", 1⟩] := by
    norm_num [match_documents, cexDocs, cexDist, distLe, List.insertionSort,
      List.orderedInsert, List.filter]
  rw [h]
  simp [List.sorted_cons]

/-- Witness for claim C5 at the concrete equidistant table. -/
theorem match_documents_spec_witness :
    (∀ m ∈ match_documents cexDist cexDocs [1, 0] (3/10) 3,
      (3/10 : ℚ) < m.similarity) ∧
    (match_documents cexDist cexDocs [1, 0] (3/10) 3).length ≤ 3 ∧
    List.Sorted (fun a b : MatchDocumentsRow => b.similarity ≤ a.similarity)
      (match_documents cexDist cexDocs [1, 0] (3/10) 3) :=
  match_documents_spec cexDist cexDocs [1, 0] (3/10) 3 (by decide)

/-- Claim C6 (amended): the assembled prompt is the fixed instruction
section (which carries the refusal phrase), then the CONTEXT block — the
context strings joined by newline in input order, empty ones kept — then
the verbatim user query, then a fixed non-empty closing section; the query
is followed by that closing section rather than ending the prompt. -/
theorem buildFullPrompt_sections (query : String) (bodies : List String) :
    buildFullPrompt query (String.intercalate "\n" bodies) =
      promptInstr ++ (String.intercalate "\n" bodies ++ (promptMid ++
        (query ++ promptClose))) ∧
    promptInstr = promptInstrA ++ refusalPhrase ++ promptInstrB ∧
    promptClose ≠ "" := by
  refine ⟨by simp [buildFullPrompt, String.append_assoc], rfl, ?_⟩
  intro hc
  have h := congrArg (fun t : String => t.data.getLast?) hc
  simp only [promptClose, String.data_append, List.getLast?_append] at h
  have h1 : promptCloseB.data.getLast? = some ':' := by decide
  rw [h1] at h
  simp [Option.or] at h

set_option maxRecDepth 10000 in
/-- Counterexample to claim C6 as stated: the prompt for the query `"Q7"`
does not end with the query — closing instruction text follows it. -/
theorem buildFullPrompt_query_not_final :
    ¬ ∃ s : String, buildFullPrompt "Q7" "ctx" = s ++ "Q7" := by
  rintro ⟨s, hs⟩
  have h := congrArg (fun t : String => t.data.getLast?) hs
  simp only [String.data_append, List.getLast?_append] at h
  have h1 : (buildFullPrompt "Q7" "ctx").data.getLast? = some ':' := by decide
  have h2 : ("Q7".data.getLast?) = some '7' := by decide
  rw [h1, h2] at h
  simp [Option.or] at h

/-- Claim C7: `generateEmbeddings` never raises — any provider failure
becomes the empty vector — and the handler always proceeds to the matcher
RPC with whatever vector came back, threshold `0.3` and count `3`, even
the degenerate empty vector. -/
theorem generateEmbeddings_failure_degrades (env : Env) (query : String)
    (h : env.embedding = EmbedOutcome.raised) :
    generateEmbeddings env.embedding = [] ∧
    Call.matchDocs (generateEmbeddings env.embedding) (3/10) 3
      ∈ (answer env query).2 := by
  refine ⟨by rw [h]; rfl, ?_⟩
  cases hr : env.rpc with
  | rpcError e => simp [answer, hr]
  | okData data =>
    cases data with
    | none => simp [answer, hr]
    | some l =>
      by_cases hl : l.length = 0 <;> simp [answer, hr, hl]

/-- Witness for claim C7 at a concrete environment with a raised
embeddings provider. -/
theorem generateEmbeddings_failure_degrades_witness :
    generateEmbeddings embedFailEnv.embedding = [] ∧
    Call.matchDocs (generateEmbeddings embedFailEnv.embedding) (3/10) 3
      ∈ (answer embedFailEnv "hello").2 :=
  generateEmbeddings_failure_degrades embedFailEnv "hello" rfl

/-- Claim C8: on a generation-provider failure `getCompletion` returns the
fixed apologetic fallback for every prompt, and the request still completes
at HTTP 200 with that fallback as the user-visible message. -/
theorem getCompletion_failure_fallback (env : Env) (query prompt : String)
    (l : List DocumentMatch) (hl : env.rpc = RpcOutcome.okData (some l))
    (hne : l ≠ []) (hc : env.completion = CompletionOutcome.raised) :
    (getCompletion prompt env.completion).message.content
      = completionFallbackMessage ∧
    (answer env query).1.body.message = completionFallbackMessage ∧
    (answer env query).1.status = 200 := by
  have hlen : ¬ l.length = 0 := by simpa [List.length_eq_zero] using hne
  refine ⟨by rw [hc]; rfl, ?_, ?_⟩ <;> simp [answer, hl, hlen, hc, getCompletion]

/-- Witness for claim C8 at a concrete environment with a raised
completion provider. -/
theorem getCompletion_failure_fallback_witness :
    (getCompletion "any prompt" completionFailEnv.completion).message.content
      = completionFallbackMessage ∧
    (answer completionFailEnv "How do I submit a project?").1.body.message
      = completionFallbackMessage ∧
    (answer completionFailEnv "How do I submit a project?").1.status = 200 :=
  getCompletion_failure_fallback completionFailEnv "How do I submit a project?"
    "any prompt" [sampleMatchA] rfl (by simp) rfl

/-- Claim C9: a matcher transport error and an empty (or null) match
sequence both produce a terminal body of the same shape — a fixed,
query-independent message with an empty docs list. -/
theorem answer_no_match_terminal_shape (env : Env) (query : String)
    (h : (∃ e, env.rpc = RpcOutcome.rpcError e) ∨ env.rpc = RpcOutcome.okData none ∨
      env.rpc = RpcOutcome.okData (some [])) :
    (answer env query).1.body.docs = [] ∧
    ((answer env query).1.body.message = errorMatchingMessage ∨
     (answer env query).1.body.message = clarificationMessage) := by
  rcases h with ⟨e, he⟩ | he | he <;> simp [answer, he]

/-- Witness for claim C9 at a concrete store-failure environment. -/
theorem answer_no_match_terminal_shape_witness :
    (answer storeFailEnv "hi").1.body.docs = [] ∧
    ((answer storeFailEnv "hi").1.body.message = errorMatchingMessage ∨
     (answer storeFailEnv "hi").1.body.message = clarificationMessage) :=
  answer_no_match_terminal_shape storeFailEnv "hi"
    (Or.inl ⟨"FetchError: network timeout", rfl⟩)

/-- Claim C10: the clarification message of the empty-match response is
byte-identical to the refusal phrase, and every assembled prompt contains
that phrase twice — in the instruction section and the closing section. -/
theorem clarification_is_refusal_phrase :
    clarificationMessage = refusalPhrase ∧
    ∀ q c, buildFullPrompt q c =
      promptInstrA ++ (refusalPhrase ++ (promptInstrB ++ (c ++ (promptMid ++ (q ++
        (promptCloseA ++ (refusalPhrase ++ promptCloseB))))))) := by
  refine ⟨rfl, fun q c => ?_⟩
  simp [buildFullPrompt, promptInstr, promptClose, String.append_assoc]
